import Mathlib

/-!
Shallow embedding of the cache-consistency and change-propagation subsystem of
APP-REPORTES-IPS-MTESS (src/sharepoint_manager.py and src/app.py).

Modelling conventions:
* Timestamps (Python `time.time()` floats) are rationals (ℚ); the literal
  thresholds `5`, `0.1` and `0.001` from the source are kept verbatim.
* A pandas DataFrame is a list of `Row` records; the derived display column
  `"#"` (a positional index) is omitted, as no logic reads it.
* Network effects are passed in as explicit inputs: `fetch_data` receives the
  already-mapped row list the Graph API pages would produce (the code of
  `fetch_data` before line 274 only builds that list), and the patch worker
  receives an oracle giving each HTTP PATCH outcome.
* `time.time()` is an explicit `now : ℚ` argument at each call.
* Python dicts keyed by strings are association lists in insertion order.
-/

/-- The two dataset identifiers, the keys of `self.dfs`, `self.last_change_times`
and `self.last_local_update_times` in `SharePointManager.__init__`. -/
inductive Source
  | IPS
  | MTESS
deriving DecidableEq, Repr

/-- The JSON key used for a dataset in `version.json` ("IPS" / "MTESS"). -/
def keyName : Source → String
  | .IPS => "IPS"
  | .MTESS => "MTESS"

/-- One row of a cached dataset table, as built by the mapping loop of
`fetch_data` (src/sharepoint_manager.py lines 219-270): only the fields the
modelled operations read or write are carried. `id` is the Graph item id
(a string). `modified` is the `Modified` timestamp. -/
structure Row where
  id : String
  revisado : String
  modificadoPor : String
  modified : ℚ
  audEntrada : String
  audEstado : String
  audSalida : String
deriving DecidableEq, Repr

/-- A cached dataset table (`self.dfs[source]`), a pandas DataFrame in the code. -/
abbrev Table := List Row

/-- An element of the `ids` list arriving from request JSON: either an integer
or a string (src/sharepoint_manager.py line 336 comment). -/
inductive IdVal
  | intId (n : Int)
  | strId (s : String)
deriving DecidableEq, Repr

/-- Python `str(x)` for an id element (src/sharepoint_manager.py line 337). -/
def pyStr : IdVal → String
  | .intId n => toString n
  | .strId s => s

/-- Python truthiness of the optional `modifier` argument (line 352 `if modifier:`):
`None` and the empty string are falsy. -/
def pyTruthy : Option String → Bool
  | none => false
  | some s => !(s == "")

/-- The state of a `SharePointManager` instance that the modelled operations
touch. `versionFile` is the JSON content of `version.json` (`none` = the file
does not exist), a dict from string keys to numbers. `df` models the attribute
`self.df`, which no method of the class ever assigns, so it is `none` on every
manager the program constructs; reading it then raises `AttributeError`. -/
structure Manager where
  dfs : Source → Table
  last_change_times : Source → ℚ
  last_local_update_times : Source → ℚ
  versionFile : Option (List (String × ℚ))
  df : Option Table

/-- The serialized dict `_save_state` writes: `json.dump(times_dict, f)` with
`times_dict = self.last_change_times`, keys "IPS" and "MTESS"
(src/sharepoint_manager.py lines 66-72). -/
def save_state_file (times : Source → ℚ) : List (String × ℚ) :=
  [("IPS", times .IPS), ("MTESS", times .MTESS)]

/-- `_save_state`: overwrites `version.json` with the serialized times dict. -/
def save_state (m : Manager) (times : Source → ℚ) : Manager :=
  { m with versionFile := some (save_state_file times) }

/-- `default_state = {"IPS": 0, "MTESS": 0}` (src/sharepoint_manager.py line 76). -/
def default_state_dict : List (String × ℚ) :=
  [("IPS", 0), ("MTESS", 0)]

/-- Lookup of a key in a JSON dict (association list). -/
def lookupKey (data : List (String × ℚ)) (k : String) : Option ℚ :=
  (data.find? (fun p => p.1 == k)).map (fun p => p.2)

/-- Python dict merge `{**a, **b}`: keys of `a` in order, values overridden by
`b` where present, followed by the keys of `b` not in `a`. -/
def pyDictUnion (a b : List (String × ℚ)) : List (String × ℚ) :=
  (a.map (fun p => ((lookupKey b p.1).elim p (fun v => (p.1, v)))))
    ++ b.filter (fun p => !(a.any (fun q => q.1 == p.1)))

/-- `_read_state` (src/sharepoint_manager.py lines 74-88) at the JSON level:
missing file gives the defaults; a dict containing the legacy key `"version"`
gives the defaults; otherwise `{**default_state, **data}`. -/
def read_state_dict (file : Option (List (String × ℚ))) : List (String × ℚ) :=
  match file with
  | none => default_state_dict
  | some data =>
    if data.any (fun p => p.1 == "version") then default_state_dict
    else pyDictUnion default_state_dict data

/-- The per-dataset value `_read_state` hands back for `file_versions[source]`
inside `check_version` (after the merge the key is always present; the
default 0 covers the impossible miss). -/
def file_versions (m : Manager) (s : Source) : ℚ :=
  (lookupKey (read_state_dict m.versionFile) (keyName s)).getD 0

/-- The row mask of `update_status_by_ids` (src/sharepoint_manager.py lines
337-340): `df["ID"].astype(str).isin([str(x) for x in ids])`; the cached `ID`
column already holds strings, so `astype(str)` is the identity. -/
def rowMask (ids : List IdVal) (r : Row) : Bool :=
  (ids.map pyStr).contains r.id

/-- The per-row effect of `update_status_by_ids` on a matched row (lines
346-353): set `REVISADO`, set `Modified` to now, and set `ModificadoPor`
when a truthy modifier was passed. -/
def applyEditRow (r : Row) (status : String) (now : ℚ) (modifier : Option String) : Row :=
  { r with
    revisado := status
    modified := now
    modificadoPor := if pyTruthy modifier then modifier.getD r.modificadoPor else r.modificadoPor }

/-- `update_status_by_ids` (src/sharepoint_manager.py lines 329-360). When the
mask matches no row it logs a warning and returns with no state change; when it
matches, it rewrites the matched rows, moves both timestamps of the dataset to
`now`, and persists the times dict to `version.json`. -/
def update_status_by_ids (m : Manager) (ids : List IdVal) (status : String)
    (modifier : Option String) (source : Source) (now : ℚ) : Manager :=
  let df := m.dfs source
  if df.any (rowMask ids) then
    let m1 : Manager :=
      { m with
        dfs := Function.update m.dfs source
          (df.map (fun r => if rowMask ids r then applyEditRow r status now modifier else r))
        last_change_times := Function.update m.last_change_times source now
        last_local_update_times := Function.update m.last_local_update_times source now }
    save_state m1 m1.last_change_times
  else m

/-- The `/api/update` request handler (src/app.py lines 293-319), success path:
rejects an empty id list with an error, otherwise applies the local edit and
answers `{"result": "success", "count": len(ids)}`. The fire-and-forget remote
patch and the monitor wake signal carry no cache state and are elided. -/
def api_update (m : Manager) (ids : List IdVal) (status : String)
    (modifier : Option String) (source : Source) (now : ℚ) :
    Except String (Manager × Nat) :=
  if ids.isEmpty then .error "No IDs provided"
  else .ok (update_status_by_ids m ids status modifier source now, ids.length)

/-- `fetch_data` (src/sharepoint_manager.py lines 179-310) from the race-guard
on: `fetched` is the row list the paged Graph listing was mapped to (lines
198-272, success path). If less than 5 seconds passed since the dataset's last
local edit, the fetched data is discarded and the cached table is returned
unchanged (lines 274-277); otherwise the cache is replaced, the last-change
time moves to `now`, and the times dict is persisted (lines 279-303). -/
def fetch_data (m : Manager) (source : Source) (fetched : Table) (now : ℚ) :
    Manager × Table :=
  if now - m.last_local_update_times source < 5 then
    (m, m.dfs source)
  else
    let m1 : Manager :=
      { m with
        dfs := Function.update m.dfs source fetched
        last_change_times := Function.update m.last_change_times source now }
    (save_state m1 m1.last_change_times, fetched)

/-- One iteration of the `for source in ["IPS", "MTESS"]` loop of
`check_version` (src/sharepoint_manager.py lines 98-107): skip the dataset
during the 5-second grace window after a local edit; otherwise fetch exactly
when the persisted value exceeds the cached value plus 0.1, appending the
dataset to `updated_sources`. `fv` is the `file_versions` dict read once
before the loop. -/
def check_version_step (fetchedRows : Source → Table) (now : ℚ) (fv : Source → ℚ)
    (acc : Manager × List Source) (source : Source) : Manager × List Source :=
  if now - acc.1.last_local_update_times source < 5 then acc
  else if fv source > acc.1.last_change_times source + 0.1 then
    ((fetch_data acc.1 source (fetchedRows source) now).1, acc.2 ++ [source])
  else acc

/-- `check_version` (src/sharepoint_manager.py lines 90-109): read the durable
state once, then run the loop body over IPS and MTESS; the second component is
`updated_sources`. -/
def check_version (m : Manager) (fetchedRows : Source → Table) (now : ℚ) :
    Manager × List Source :=
  let fv := fun s => (lookupKey (read_state_dict m.versionFile) (keyName s)).getD 0
  [Source.IPS, Source.MTESS].foldl (check_version_step fetchedRows now fv) (m, [])

/-- One iteration of the broadcast loop of `background_monitor` (src/app.py
lines 90-102): if the dataset's current version exceeds the last emitted one
by more than 0.001, emit a `server_update` event for it (append it to the
emitted list) and record the emitted version in `last_emitted_versions`. -/
def broadcast_step (current : Source → ℚ) (acc : List Source × (Source → ℚ))
    (s : Source) : List Source × (Source → ℚ) :=
  if current s > acc.2 s + 0.001 then
    (acc.1 ++ [s], Function.update acc.2 s (current s))
  else acc

/-- The whole broadcast phase of one monitor tick: the loop body over IPS then
MTESS, returning the emitted datasets (in loop order) and the updated
`last_emitted_versions` map. -/
def broadcast_tick (current lastEmitted : Source → ℚ) : List Source × (Source → ℚ) :=
  [Source.IPS, Source.MTESS].foldl (broadcast_step current) ([], lastEmitted)

/-- A Python runtime error relevant to the embedded code. -/
inductive PyError
  | attributeError
deriving DecidableEq, Repr

/-- `get_inconsistencies` (src/sharepoint_manager.py lines 312-320): returns
the empty table early when the cached table is empty; otherwise it evaluates
`self.df["AUD_ENTRADA"] ...`, and since no method ever assigns `self.df`
(modelled by the `df : Option Table` field) this raises `AttributeError`
whenever `m.df` is absent. -/
def get_inconsistencies (m : Manager) (source : Source) : Except PyError Table :=
  let df := m.dfs source
  if df.isEmpty then .ok df
  else
    match m.df with
    | none => .error .attributeError
    | some d =>
      .ok (d.filter (fun r =>
        !(r.audEntrada == "COINCIDE") || !(r.audEstado == "COINCIDE")
          || !(r.audSalida == "COINCIDE")))

/-- `get_verified` (src/sharepoint_manager.py lines 322-327): same shape as
`get_inconsistencies`, with the `REVISADO` mask. -/
def get_verified (m : Manager) (source : Source) : Except PyError Table :=
  let df := m.dfs source
  if df.isEmpty then .ok df
  else
    match m.df with
    | none => .error .attributeError
    | some d => .ok (d.filter (fun r => r.revisado.toUpper == "REVISADO"))

/-- The two fields `_patch_worker` may PATCH on an item (src/sharepoint_manager.py
lines 396 and 410). -/
inductive PatchField
  | revisado
  | modificadoPor
deriving DecidableEq, Repr

/-- Outcome of one HTTP PATCH request: a status code, or a raised exception. -/
inductive HttpResult
  | status (code : Nat)
  | exc
deriving DecidableEq, Repr

/-- The remote side of `_patch_worker`, as an oracle: what each PATCH of a
given field on a given item id would return. -/
def PatchOracle := String → PatchField → HttpResult

/-- What `_patch_worker` did for one item id: the status-field PATCH outcome
(`none` when the request raised), whether the attribution PATCH was attempted,
and its outcome. -/
structure RowPatchLog where
  statusCode : Option Nat
  attrAttempted : Bool
  attrCode : Option Nat
deriving DecidableEq, Repr

/-- The body of the `for item_id in item_ids` loop of `_patch_worker`
(src/sharepoint_manager.py lines 392-423), for one item: PATCH the `REVISADO`
field first; only on HTTP 200 and with a truthy modifier name, PATCH the
`ModificadoPor` field, whose failure (non-200 or exception) is only logged.
The second component lists the PATCH requests issued, in order. -/
def patch_row (oracle : PatchOracle) (modifier : Option String) (itemId : String) :
    RowPatchLog × List PatchField :=
  match oracle itemId .revisado with
  | .exc => ({ statusCode := none, attrAttempted := false, attrCode := none }, [.revisado])
  | .status code =>
    if code = 200 then
      if pyTruthy modifier then
        match oracle itemId .modificadoPor with
        | .exc =>
          ({ statusCode := some code, attrAttempted := true, attrCode := none },
            [.revisado, .modificadoPor])
        | .status c2 =>
          ({ statusCode := some code, attrAttempted := true, attrCode := some c2 },
            [.revisado, .modificadoPor])
      else ({ statusCode := some code, attrAttempted := false, attrCode := none }, [.revisado])
    else ({ statusCode := some code, attrAttempted := false, attrCode := none }, [.revisado])

/-- `_patch_worker` over its whole item list: the loop catches every per-row
exception and moves on, so the worker is a plain map of `patch_row` over the
ids (src/sharepoint_manager.py lines 392-423). -/
def patch_worker (oracle : PatchOracle) (ids : List String) (modifier : Option String) :
    List (RowPatchLog × List PatchField) :=
  ids.map (patch_row oracle modifier)

/-- A connected user's identity as stored in `connected_users`
(src/app.py lines 255-259). -/
structure User where
  name : String
  email : String
  photo : String
deriving DecidableEq, Repr

/-- The `connected_users` dict: socket id to user, in insertion order. -/
abbrev PresenceMap := List (String × User)

/-- The socket events the presence handlers emit (src/app.py lines 270-289). -/
inductive PresenceEvent
  | userJoined (u : User)
  | presenceListToSelf (l : List User)
  | userLeft (u : User)
  | presenceUpdate (l : List User)
deriving DecidableEq, Repr

/-- Python dict assignment `connected_users[sid] = u`: replace in place when
the key exists, append otherwise. -/
def dictSet (st : PresenceMap) (sid : String) (u : User) : PresenceMap :=
  if st.any (fun p => p.1 == sid) then
    st.map (fun p => if p.1 == sid then (sid, u) else p)
  else st ++ [(sid, u)]

/-- `handle_connect` (src/app.py lines 250-274): scan the existing connections
for the same email, register the connection, broadcast `user_joined` to the
others only when no earlier connection had this email, and always send the
full (per-connection, un-deduplicated) presence list to the connecting client. -/
def handle_connect (st : PresenceMap) (sid : String) (u : User) :
    PresenceMap × List PresenceEvent :=
  let is_new_person := !(st.any (fun p => p.2.email == u.email))
  let st1 := dictSet st sid u
  (st1,
    (if is_new_person then [.userJoined u] else [])
      ++ [.presenceListToSelf (st1.map (fun p => p.2))])

/-- `handle_disconnect` (src/app.py lines 276-289): pop the connection if
present; broadcast `user_left` only when no other connection with the same
email remains, and always broadcast the refreshed presence list. -/
def handle_disconnect (st : PresenceMap) (sid : String) :
    PresenceMap × List PresenceEvent :=
  match st.find? (fun p => p.1 == sid) with
  | none => (st, [])
  | some p =>
    let st1 := st.filter (fun q => !(q.1 == sid))
    let is_still_here := st1.any (fun q => q.2.email == p.2.email)
    (st1,
      (if is_still_here then [] else [.userLeft p.2])
        ++ [.presenceUpdate (st1.map (fun q => q.2))])

/-- Number of `user_joined` events in an event list. -/
def joinedCount (evs : List PresenceEvent) : Nat :=
  (evs.filter (fun e => match e with | .userJoined _ => true | _ => false)).length

/-- A concrete serialization of the times dict, standing for the byte stream
`json.dump(times_dict, f)` produces (exact number formatting is irrelevant to
the write-atomicity question). -/
def dumpTimes (ips mtess : ℚ) : String :=
  "\x7b\"IPS\": " ++ toString ips ++ ", \"MTESS\": " ++ toString mtess ++ "\x7d"

/-- The on-disk content of `version.json` after a `_save_state` call that fails
after `k` bytes of the dump were written: `open(self.state_file, 'w')`
(src/sharepoint_manager.py line 69) truncates the file at once, and
`json.dump` then streams the new serialization, so the prior content is gone
regardless of `k` and only the first `k` bytes of the new content remain. -/
def partial_write_result (newContent : String) (k : Nat) : String :=
  ⟨newContent.toList.take k⟩

/-- A concrete cached row used by witnesses and counterexamples. -/
def sampleRow : Row :=
  { id := "1", revisado := "PENDIENTE", modificadoPor := "", modified := 0,
    audEntrada := "NO_COINCIDE", audEstado := "COINCIDE", audSalida := "COINCIDE" }

/-- A concrete manager whose IPS table holds `sampleRow` and whose MTESS table
is empty, with all timestamps 0 and no version file yet. -/
def sampleManager : Manager :=
  { dfs := fun s => match s with | .IPS => [sampleRow] | .MTESS => []
    last_change_times := fun _ => 0
    last_local_update_times := fun _ => 0
    versionFile := none
    df := none }

/-- A manager in the middle of the local-edit grace window: the IPS row was
locally edited at t = 98, the durable file says IPS changed at t = 10, while
the in-memory IPS last-change time is 0. -/
def graceManager : Manager :=
  { dfs := fun s => match s with | .IPS => [sampleRow] | .MTESS => []
    last_change_times := fun _ => 0
    last_local_update_times := fun s => match s with | .IPS => 98 | .MTESS => 0
    versionFile := some [("IPS", 10), ("MTESS", 0)]
    df := none }

/-- C5 — String/numeric id equivalence: an edit called with the integer id `n`
and one called with the string id `str(n)` select and mutate exactly the same
rows, because `update_status_by_ids` stringifies every incoming id before
matching; in particular `[123]` and `["123"]` match the same cached row "123". -/
theorem id_equivalence (m : Manager) (v : String) (who : Option String)
    (s : Source) (now : ℚ) (n : Int) :
    update_status_by_ids m [.intId n] v who s now
      = update_status_by_ids m [.strId (toString n)] v who s now := rfl

/-- C4 (amended) — a local edit whose id set matches no cached row is a
non-fatal no-op: the handler does not throw, the manager (cached table, both
timestamps, durable version file) is returned unchanged, and the handler
responds with a count equal to the number of submitted ids. -/
theorem zero_match_noop (m : Manager) (ids : List IdVal) (v : String)
    (who : Option String) (s : Source) (now : ℚ)
    (hids : ids.isEmpty = false)
    (hzero : (m.dfs s).any (rowMask ids) = false) :
    api_update m ids v who s now = .ok (m, ids.length) := by
  simp [api_update, hids, update_status_by_ids, hzero]

/-- Witness for C4's amended theorem at a concrete zero-match edit. -/
theorem zero_match_noop_witness :
    api_update sampleManager [.strId "doesnotexist"] "REVISADO" (some "Ana") .IPS 10
      = .ok (sampleManager, 1) :=
  zero_match_noop sampleManager [.strId "doesnotexist"] "REVISADO" (some "Ana") .IPS 10
    (by decide) (by decide)

/-- C4 counterexample — the claim says the edit operation exposed to request
handlers returns a count of zero on a zero-match edit; at the concrete input
`ids = ["doesnotexist"]` (matching no cached row) the `/api/update` handler
answers `count = len(ids) = 1`, not zero. -/
theorem zero_match_count_counterexample :
    (sampleManager.dfs .IPS).any (rowMask [.strId "doesnotexist"]) = false ∧
    api_update sampleManager [.strId "doesnotexist"] "REVISADO" (some "Ana") .IPS 10
      = .ok (sampleManager, 1) ∧
    (1 : Nat) ≠ 0 := by
  refine ⟨by decide, ?_, by decide⟩
  rfl

/-- C7 — durable-write atomicity fails in the code: `_save_state` opens
`version.json` with mode `'w'`, which truncates in place before `json.dump`
streams the new bytes, so a write that fails partway (here: after 0 bytes of
the dump) leaves an empty file instead of the previously committed contents —
the prior per-dataset timestamps are lost and the remaining bytes are not the
prior valid JSON. -/
theorem durable_write_truncates :
    partial_write_result (dumpTimes 200 75) 0 = "" ∧
    partial_write_result (dumpTimes 200 75) 0 ≠ dumpTimes 100 50 := by
  with_unfolding_all decide

/-- C10 — on every manager the program builds (`self.df` never assigned, so
`m.df = none`), `get_inconsistencies` and `get_verified` raise
`AttributeError` whenever the cached table for the source is non-empty, and
return the empty cached table without error when it is empty. -/
theorem read_ops_attribute_error (m : Manager) (s : Source) (hdf : m.df = none) :
    ((m.dfs s).isEmpty = false →
      get_inconsistencies m s = .error .attributeError ∧
      get_verified m s = .error .attributeError) ∧
    ((m.dfs s).isEmpty = true →
      get_inconsistencies m s = .ok (m.dfs s) ∧
      get_verified m s = .ok (m.dfs s)) := by
  constructor
  · intro h
    constructor <;> simp [get_inconsistencies, get_verified, h, hdf]
  · intro h
    constructor <;> simp [get_inconsistencies, get_verified, h]

/-- Witness for C10: the sample manager has a non-empty IPS table (both read
operations error) and an empty MTESS table (both return the empty table). -/
theorem read_ops_attribute_error_witness :
    (get_inconsistencies sampleManager .IPS = .error .attributeError ∧
      get_verified sampleManager .IPS = .error .attributeError) ∧
    (get_inconsistencies sampleManager .MTESS = .ok (sampleManager.dfs .MTESS) ∧
      get_verified sampleManager .MTESS = .ok (sampleManager.dfs .MTESS)) :=
  ⟨(read_ops_attribute_error sampleManager .IPS rfl).1 rfl,
    (read_ops_attribute_error sampleManager .MTESS rfl).2 rfl⟩

/-- If no entry of a JSON dict carries the key `k`, looking `k` up fails. -/
lemma lookupKey_eq_none_of_not_any (data : List (String × ℚ)) (k : String)
    (h : data.any (fun p => p.1 == k) = false) :
    lookupKey data k = none := by
  have hfind : data.find? (fun p => p.1 == k) = none := by
    rw [List.find?_eq_none]
    intro x hx hbeq
    have hany : data.any (fun p => p.1 == k) = true := List.any_eq_true.mpr ⟨x, hx, hbeq⟩
    rw [h] at hany
    exact Bool.false_ne_true hany
  unfold lookupKey
  rw [hfind]
  rfl

/-- C6 — durable state round-trip and legacy fallback: saving the mapping
IPS ↦ 100, MTESS ↦ 50 and reading it back yields the identical dict; reading
a file holding only the legacy key `"version"` yields the all-default dict;
and for any stored dict without the legacy key, every absent dataset key reads
back as 0 instead of erroring. -/
theorem durable_state_round_trip :
    (read_state_dict (some (save_state_file
        (fun s => match s with | .IPS => 100 | .MTESS => 50)))
      = [("IPS", 100), ("MTESS", 50)]) ∧
    (read_state_dict (some [("version", 7)]) = [("IPS", 0), ("MTESS", 0)]) ∧
    (∀ data : List (String × ℚ),
      data.any (fun p => p.1 == "version") = false →
      ∀ s : Source, data.any (fun p => p.1 == keyName s) = false →
        lookupKey (read_state_dict (some data)) (keyName s) = some 0) := by
  refine ⟨by with_unfolding_all decide, by with_unfolding_all decide, ?_⟩
  intro data hver s hmiss
  have hnone := lookupKey_eq_none_of_not_any data (keyName s) hmiss
  have hred : read_state_dict (some data) = pyDictUnion default_state_dict data := by
    simp [read_state_dict, hver]
  rw [hred]
  cases s
  case IPS =>
    simp only [keyName] at hnone ⊢
    rw [pyDictUnion]
    simp only [default_state_dict, List.map_cons, List.map_nil]
    rw [hnone]
    simp [lookupKey]
  case MTESS =>
    simp only [keyName] at hnone ⊢
    rw [pyDictUnion]
    simp only [default_state_dict, List.map_cons, List.map_nil]
    rw [hnone]
    cases hIPS : lookupKey data "IPS" <;> simp [hIPS, lookupKey]

/-- Witness for C6's general missing-key clause: a stored dict with a single
unrelated key reads back 0 for the IPS dataset. -/
theorem durable_state_round_trip_witness :
    lookupKey (read_state_dict (some [("foo", (3 : ℚ))])) (keyName .IPS) = some 0 :=
  durable_state_round_trip.2.2 [("foo", 3)] (by decide) .IPS (by decide)

/-- C1 — no-lost-edit: once `update_status_by_ids` completes on a matching id
set, every matching cached row carries the new review value, and a
`fetch_data` that reaches its race guard less than 5 seconds after the edit
discards the fetched rows and returns the manager and its cached table
unchanged, so the edit's review status is not reverted in that window. -/
theorem no_lost_edit (m : Manager) (ids : List IdVal) (v : String)
    (who : Option String) (s : Source) (t0 t1 : ℚ) (fetched : Table)
    (hmatch : (m.dfs s).any (rowMask ids) = true)
    (hwin : t1 - t0 < 5) :
    (∀ r ∈ (update_status_by_ids m ids v who s t0).dfs s,
        rowMask ids r = true → r.revisado = v) ∧
    fetch_data (update_status_by_ids m ids v who s t0) s fetched t1
      = (update_status_by_ids m ids v who s t0,
          (update_status_by_ids m ids v who s t0).dfs s) := by
  have hdfs : (update_status_by_ids m ids v who s t0).dfs s
      = (m.dfs s).map
          (fun r => if rowMask ids r then applyEditRow r v t0 who else r) := by
    simp [update_status_by_ids, hmatch, save_state]
  have hllu : (update_status_by_ids m ids v who s t0).last_local_update_times s = t0 := by
    simp [update_status_by_ids, hmatch, save_state]
  constructor
  · intro r hr hmask
    rw [hdfs] at hr
    rcases List.mem_map.mp hr with ⟨r0, hr0, rfl⟩
    by_cases hm0 : rowMask ids r0 = true
    · simp [hm0, applyEditRow]
    · simp [hm0] at hmask
  · rw [fetch_data, hllu, if_pos hwin]

/-- Witness for C1: the sample manager's row "1" is marked REVISADO at t = 100
and a fetch landing at t = 102 is discarded. -/
theorem no_lost_edit_witness :
    (∀ r ∈ (update_status_by_ids sampleManager [.strId "1"] "REVISADO"
        (some "Ana") .IPS 100).dfs .IPS,
        rowMask [.strId "1"] r = true → r.revisado = "REVISADO") ∧
    fetch_data (update_status_by_ids sampleManager [.strId "1"] "REVISADO"
        (some "Ana") .IPS 100) .IPS [] 102
      = (update_status_by_ids sampleManager [.strId "1"] "REVISADO"
          (some "Ana") .IPS 100,
          (update_status_by_ids sampleManager [.strId "1"] "REVISADO"
            (some "Ana") .IPS 100).dfs .IPS) :=
  no_lost_edit sampleManager [.strId "1"] "REVISADO" (some "Ana") .IPS 100 102 []
    (by decide) (by with_unfolding_all decide)

/-- `fetch_data` never touches the last-local-edit timestamps. -/
lemma fetch_data_preserves_llu (m : Manager) (source : Source) (fetched : Table) (now : ℚ) :
    ((fetch_data m source fetched now).1).last_local_update_times
      = m.last_local_update_times := by
  unfold fetch_data
  split
  · rfl
  · rfl

/-- `fetch_data` on one dataset leaves the other dataset's last-change time alone. -/
lemma fetch_data_preserves_lct_ne (m : Manager) (source : Source) (fetched : Table)
    (now : ℚ) (s : Source) (h : s ≠ source) :
    ((fetch_data m source fetched now).1).last_change_times s
      = m.last_change_times s := by
  unfold fetch_data
  split
  · rfl
  · simp [save_state, Function.update_noteq h]

/-- Membership in the `updated_sources` accumulator after one loop iteration
of `check_version`. -/
lemma check_version_step_mem (fetchedRows : Source → Table) (now : ℚ)
    (fv : Source → ℚ) (acc : Manager × List Source) (src s : Source) :
    s ∈ (check_version_step fetchedRows now fv acc src).2 ↔
      (s ∈ acc.2 ∨ (s = src ∧ ¬ (now - acc.1.last_local_update_times src < 5) ∧
        fv src > acc.1.last_change_times src + 0.1)) := by
  unfold check_version_step
  split
  · rename_i h
    simp [h]
  · rename_i h
    split
    · rename_i h2
      simp [h, h2]
    · rename_i h2
      simp [h, h2]

/-- One loop iteration of `check_version` preserves the last-local-edit map
and every other dataset's last-change time. -/
lemma check_version_step_preserves (fetchedRows : Source → Table) (now : ℚ)
    (fv : Source → ℚ) (acc : Manager × List Source) (src : Source) :
    ((check_version_step fetchedRows now fv acc src).1).last_local_update_times
        = acc.1.last_local_update_times ∧
    (∀ s, s ≠ src →
      ((check_version_step fetchedRows now fv acc src).1).last_change_times s
        = acc.1.last_change_times s) := by
  unfold check_version_step
  split
  · exact ⟨rfl, fun s _ => rfl⟩
  · split
    · exact ⟨fetch_data_preserves_llu _ _ _ _,
        fun s h => fetch_data_preserves_lct_ne _ _ _ _ s h⟩
    · exact ⟨rfl, fun s _ => rfl⟩

/-- C2 (amended) — reconciliation refresh condition: on a tick, a dataset is
refreshed from remote (appears in `updated_sources`) exactly when its
5-second post-edit grace period has elapsed AND the persisted timestamp
exceeds the cached last-change timestamp plus the 0.1 epsilon; in particular
no refresh happens when the persisted value does not exceed cached + 0.1. -/
theorem check_version_refresh_iff (m : Manager) (fetchedRows : Source → Table)
    (now : ℚ) (s : Source) :
    s ∈ (check_version m fetchedRows now).2 ↔
      (¬ (now - m.last_local_update_times s < 5) ∧
        file_versions m s > m.last_change_times s + 0.1) := by
  have hck : check_version m fetchedRows now
      = check_version_step fetchedRows now (file_versions m)
          (check_version_step fetchedRows now (file_versions m) (m, []) .IPS) .MTESS := rfl
  obtain ⟨hllu, hlct⟩ :=
    check_version_step_preserves fetchedRows now (file_versions m) (m, []) .IPS
  rw [hck, check_version_step_mem, check_version_step_mem, hllu,
    hlct Source.MTESS (by decide)]
  cases s <;> simp

/-- C2 counterexample — the claim says the refresh fires exactly when
persisted > cached + 0.1, with no other condition; in `graceManager` the
persisted IPS timestamp (10) exceeds the cached one (0) by more than 0.1, yet
a tick at `now = 100` (2 seconds after the local edit at 98) refreshes
nothing, because the loop skips a dataset inside its 5-second post-edit grace
window. -/
theorem check_version_grace_counterexample :
    file_versions graceManager .IPS > graceManager.last_change_times .IPS + 0.1 ∧
    Source.IPS ∉ (check_version graceManager (fun _ => []) 100).2 := by
  with_unfolding_all decide

/-- A version does not exceed itself by more than the broadcast epsilon. -/
lemma rat_not_gt_add_eps (a : ℚ) : ¬ (a > a + 0.001) := by
  intro h
  have h1 : (0 : ℚ) < 0.001 := by norm_num
  linarith

/-- Membership in the emitted list after one broadcast loop iteration. -/
lemma broadcast_step_mem (current : Source → ℚ) (acc : List Source × (Source → ℚ))
    (src s : Source) :
    s ∈ (broadcast_step current acc src).1 ↔
      (s ∈ acc.1 ∨ (s = src ∧ current src > acc.2 src + 0.001)) := by
  unfold broadcast_step
  split
  · rename_i h
    simp [h]
  · rename_i h
    simp [h]

/-- The emitted list after one broadcast loop iteration. -/
lemma broadcast_step_fst (current : Source → ℚ) (acc : List Source × (Source → ℚ))
    (src : Source) :
    (broadcast_step current acc src).1 =
      if current src > acc.2 src + 0.001 then acc.1 ++ [src] else acc.1 := by
  unfold broadcast_step
  split
  · rfl
  · rfl

/-- The recorded version of the iterated dataset after one broadcast loop
iteration. -/
lemma broadcast_step_snd_same (current : Source → ℚ) (acc : List Source × (Source → ℚ))
    (src : Source) :
    (broadcast_step current acc src).2 src =
      if current src > acc.2 src + 0.001 then current src else acc.2 src := by
  unfold broadcast_step
  split
  · simp [Function.update_same]
  · rfl

/-- The recorded version of any other dataset is untouched by one broadcast
loop iteration. -/
lemma broadcast_step_snd_ne (current : Source → ℚ) (acc : List Source × (Source → ℚ))
    (src s : Source) (h : s ≠ src) :
    (broadcast_step current acc src).2 s = acc.2 s := by
  unfold broadcast_step
  split
  · simp [Function.update_noteq h]
  · rfl

/-- C3 — idempotent broadcast: a monitor tick emits for a dataset exactly when
its current version exceeds the last-broadcast version by more than 0.001, it
records the emitted version for every dataset it emits, and a second tick run
immediately after with unchanged current versions emits nothing, so two
back-to-back reconciliation ticks produce at most one broadcast per dataset. -/
theorem idempotent_broadcast (current last : Source → ℚ) :
    (∀ s, s ∈ (broadcast_tick current last).1 ↔ current s > last s + 0.001) ∧
    (∀ s, s ∈ (broadcast_tick current last).1 →
      (broadcast_tick current last).2 s = current s) ∧
    (broadcast_tick current ((broadcast_tick current last).2)).1 = [] ∧
    (∀ s, ((broadcast_tick current last).1
        ++ (broadcast_tick current ((broadcast_tick current last).2)).1).count s ≤ 1) := by
  have e1 : broadcast_tick current last
      = broadcast_step current (broadcast_step current ([], last) .IPS) .MTESS := rfl
  have hsIPS : (broadcast_tick current last).2 .IPS
      = if current .IPS > last .IPS + 0.001 then current .IPS else last .IPS := by
    rw [e1, broadcast_step_snd_ne current _ .MTESS .IPS (by decide),
      broadcast_step_snd_same]
  have hsMTESS : (broadcast_tick current last).2 .MTESS
      = if current .MTESS > last .MTESS + 0.001 then current .MTESS else last .MTESS := by
    rw [e1, broadcast_step_snd_same,
      broadcast_step_snd_ne current ([], last) .IPS .MTESS (by decide)]
  have hfst : (broadcast_tick current last).1
      = (if current .IPS > last .IPS + 0.001 then [Source.IPS] else [])
        ++ (if current .MTESS > last .MTESS + 0.001 then [Source.MTESS] else []) := by
    rw [e1, broadcast_step_fst,
      broadcast_step_snd_ne current ([], last) .IPS .MTESS (by decide),
      broadcast_step_fst]
    by_cases hI : current .IPS > last .IPS + 0.001 <;>
      by_cases hM : current .MTESS > last .MTESS + 0.001 <;>
      simp [hI, hM]
  have h2I : ¬ (current .IPS > (broadcast_tick current last).2 .IPS + 0.001) := by
    rw [hsIPS]
    by_cases hI : current .IPS > last .IPS + 0.001
    · rw [if_pos hI]
      exact rat_not_gt_add_eps _
    · rw [if_neg hI]
      exact hI
  have h2M : ¬ (current .MTESS > (broadcast_tick current last).2 .MTESS + 0.001) := by
    rw [hsMTESS]
    by_cases hM : current .MTESS > last .MTESS + 0.001
    · rw [if_pos hM]
      exact rat_not_gt_add_eps _
    · rw [if_neg hM]
      exact hM
  have hT2 : (broadcast_tick current ((broadcast_tick current last).2)).1 = [] := by
    have e2 : broadcast_tick current ((broadcast_tick current last).2)
        = broadcast_step current
            (broadcast_step current ([], (broadcast_tick current last).2) .IPS) .MTESS := rfl
    rw [e2, broadcast_step_fst,
      broadcast_step_snd_ne current ([], (broadcast_tick current last).2) .IPS .MTESS
        (by decide),
      if_neg h2M, broadcast_step_fst, if_neg h2I]
  refine ⟨fun s => ?_, fun s hs => ?_, hT2, fun s => ?_⟩
  · cases s <;>
      rw [hfst] <;>
      by_cases hI : current .IPS > last .IPS + 0.001 <;>
      by_cases hM : current .MTESS > last .MTESS + 0.001 <;>
      simp [hI, hM]
  · rw [hfst] at hs
    cases s
    · rw [hsIPS]
      by_cases hI : current .IPS > last .IPS + 0.001
      · rw [if_pos hI]
      · exfalso
        by_cases hM : current .MTESS > last .MTESS + 0.001 <;> simp [hI, hM] at hs
    · rw [hsMTESS]
      by_cases hM : current .MTESS > last .MTESS + 0.001
      · rw [if_pos hM]
      · exfalso
        by_cases hI : current .IPS > last .IPS + 0.001 <;> simp [hI, hM] at hs
  · rw [hT2, List.append_nil, hfst]
    by_cases hI : current .IPS > last .IPS + 0.001 <;>
      by_cases hM : current .MTESS > last .MTESS + 0.001 <;>
      cases s <;>
      simp [hI, hM, List.count_cons, List.count_nil, List.count_append]

/-- C8 — patch dispatcher two-step, partial-success semantics: for a row, the
attribution PATCH is attempted exactly when the status PATCH returned HTTP 200
and a truthy modifier name was given; the status outcome records 200 exactly
when the status PATCH returned 200 (an attribution failure cannot undo it);
per row the status field is requested exactly once and the attribution field
at most once (no retry); the worker handles each row independently as a map
over the id list, so one row's outcome depends only on that row's responses. -/
theorem patch_dispatcher_two_step (oracle : PatchOracle) (modifier : Option String)
    (itemId : String) (ids : List String) :
    ((patch_row oracle modifier itemId).1.attrAttempted = true ↔
      (oracle itemId .revisado = .status 200 ∧ pyTruthy modifier = true)) ∧
    ((patch_row oracle modifier itemId).1.statusCode = some 200 ↔
      oracle itemId .revisado = .status 200) ∧
    ((patch_row oracle modifier itemId).2.count .revisado = 1 ∧
      (patch_row oracle modifier itemId).2.count .modificadoPor ≤ 1) ∧
    (patch_worker oracle ids modifier = ids.map (patch_row oracle modifier)) ∧
    (∀ oracle2 : PatchOracle, (∀ f, oracle2 itemId f = oracle itemId f) →
      patch_row oracle2 modifier itemId = patch_row oracle modifier itemId) := by
  refine ⟨?_, ?_, ?_, rfl, ?_⟩
  · cases h : oracle itemId .revisado with
    | exc => simp [patch_row, h]
    | status code =>
      by_cases hc : code = 200
      · subst hc
        by_cases hm : pyTruthy modifier = true
        · cases h2 : oracle itemId .modificadoPor <;> simp [patch_row, h, h2, hm]
        · simp [patch_row, h, hm]
      · simp [patch_row, h, hc]
  · cases h : oracle itemId .revisado with
    | exc => simp [patch_row, h]
    | status code =>
      by_cases hc : code = 200
      · subst hc
        by_cases hm : pyTruthy modifier = true
        · cases h2 : oracle itemId .modificadoPor <;> simp [patch_row, h, h2, hm]
        · simp [patch_row, h, hm]
      · simp [patch_row, h, hc]
  · cases h : oracle itemId .revisado with
    | exc => simp [patch_row, h]
    | status code =>
      by_cases hc : code = 200
      · subst hc
        by_cases hm : pyTruthy modifier = true
        · cases h2 : oracle itemId .modificadoPor <;> simp [patch_row, h, h2, hm]
        · simp [patch_row, h, hm]
      · simp [patch_row, h, hc]
  · intro oracle2 h
    simp only [patch_row, h]

/-- Witness for C8's row-independence clause: two oracles agreeing on item "7"
give the same row outcome there. -/
theorem patch_dispatcher_two_step_witness :
    patch_row (fun s _ => if s == "7" then HttpResult.status 200 else .exc)
        (some "Ana") "7"
      = patch_row (fun _ _ => HttpResult.status 200) (some "Ana") "7" :=
  (patch_dispatcher_two_step (fun _ _ => .status 200) (some "Ana") "7" ["7"]).2.2.2.2
    (fun s _ => if s == "7" then .status 200 else .exc) (fun _ => rfl)

/-- C9 — presence dedup by email: connecting a second session for an email
already connected broadcasts no second "joined" event (exactly one joined
event across both connects), while the presence list sent to the second
client has one entry per connection (length grows to the old count plus the
two new connections); on disconnect of a present connection, "left" is
broadcast exactly when no connection with that email remains, and a
presence-list refresh is always broadcast. -/
theorem presence_dedup (st : PresenceMap) (sid1 sid2 : String) (u1 u2 : User)
    (stD : PresenceMap) (sidD : String) (p : String × User)
    (hmail : u1.email = u2.email)
    (h1 : st.any (fun q => q.1 == sid1) = false)
    (h2 : st.any (fun q => q.1 == sid2) = false)
    (hne : (sid1 == sid2) = false)
    (hnew : st.any (fun q => q.2.email == u1.email) = false)
    (hfind : stD.find? (fun q => q.1 == sidD) = some p) :
    (joinedCount ((handle_connect st sid1 u1).2
        ++ (handle_connect (handle_connect st sid1 u1).1 sid2 u2).2) = 1) ∧
    (PresenceEvent.presenceListToSelf
        (((handle_connect (handle_connect st sid1 u1).1 sid2 u2).1).map (fun q => q.2))
      ∈ (handle_connect (handle_connect st sid1 u1).1 sid2 u2).2) ∧
    ((((handle_connect (handle_connect st sid1 u1).1 sid2 u2).1).map (fun q => q.2)).length
      = st.length + 2) ∧
    (PresenceEvent.userLeft p.2 ∈ (handle_disconnect stD sidD).2 ↔
      (handle_disconnect stD sidD).1.any (fun q => q.2.email == p.2.email) = false) ∧
    (PresenceEvent.presenceUpdate ((handle_disconnect stD sidD).1.map (fun q => q.2))
      ∈ (handle_disconnect stD sidD).2) := by
  rw [hmail] at hnew
  have hr1 : handle_connect st sid1 u1
      = (st ++ [(sid1, u1)],
          [PresenceEvent.userJoined u1,
            .presenceListToSelf ((st ++ [(sid1, u1)]).map (fun q => q.2))]) := by
    simp [handle_connect, dictSet, hnew, h1, hmail]
  have hany2 : (st ++ [(sid1, u1)]).any (fun q => q.2.email == u2.email) = true := by
    rw [List.any_append]
    simp [hmail]
  have hfr2 : (st ++ [(sid1, u1)]).any (fun q => q.1 == sid2) = false := by
    rw [List.any_append]
    simp [h2, hne]
  have hr2 : handle_connect (st ++ [(sid1, u1)]) sid2 u2
      = ((st ++ [(sid1, u1)]) ++ [(sid2, u2)],
          [PresenceEvent.presenceListToSelf
            (((st ++ [(sid1, u1)]) ++ [(sid2, u2)]).map (fun q => q.2))]) := by
    simp [handle_connect, dictSet, hany2, hfr2]
  have hd : handle_disconnect stD sidD
      = (stD.filter (fun q => !(q.1 == sidD)),
          (if (stD.filter (fun q => !(q.1 == sidD))).any
              (fun q => q.2.email == p.2.email) = true
            then [] else [PresenceEvent.userLeft p.2])
          ++ [.presenceUpdate ((stD.filter (fun q => !(q.1 == sidD))).map (fun q => q.2))]) := by
    simp [handle_disconnect, hfind]
  refine ⟨?_, ?_, ?_, ?_, ?_⟩
  · rw [hr1, hr2, joinedCount, List.filter_append]
    simp [joinedCount]
  · rw [hr1, hr2]
    simp
  · rw [hr1, hr2]
    simp
  · rw [hd]
    by_cases hstill : (stD.filter (fun q => !(q.1 == sidD))).any
        (fun q => q.2.email == p.2.email) = true <;>
      simp [hstill]
  · rw [hd]
    by_cases hstill : (stD.filter (fun q => !(q.1 == sidD))).any
        (fun q => q.2.email == p.2.email) = true <;>
      simp [hstill]

/-- Witness for C9: two fresh sessions "s1", "s2" of the same user joining an
empty room, and a disconnect of the only session "s1" of that user. -/
theorem presence_dedup_witness :
    (joinedCount ((handle_connect [] "s1" ⟨"Ana", "ana", ""⟩).2
        ++ (handle_connect (handle_connect [] "s1" ⟨"Ana", "ana", ""⟩).1 "s2"
            ⟨"Ana", "ana", ""⟩).2) = 1) ∧
    (PresenceEvent.presenceListToSelf
        (((handle_connect (handle_connect [] "s1" ⟨"Ana", "ana", ""⟩).1 "s2"
            ⟨"Ana", "ana", ""⟩).1).map (fun q => q.2))
      ∈ (handle_connect (handle_connect [] "s1" ⟨"Ana", "ana", ""⟩).1 "s2"
          ⟨"Ana", "ana", ""⟩).2) ∧
    ((((handle_connect (handle_connect [] "s1" ⟨"Ana", "ana", ""⟩).1 "s2"
        ⟨"Ana", "ana", ""⟩).1).map (fun q => q.2)).length
      = ([] : PresenceMap).length + 2) ∧
    (PresenceEvent.userLeft (("s1", (⟨"Ana", "ana", ""⟩ : User)) : String × User).2
        ∈ (handle_disconnect [("s1", ⟨"Ana", "ana", ""⟩)] "s1").2 ↔
      (handle_disconnect [("s1", ⟨"Ana", "ana", ""⟩)] "s1").1.any
          (fun q => q.2.email == (("s1", (⟨"Ana", "ana", ""⟩ : User)) : String × User).2.email)
        = false) ∧
    (PresenceEvent.presenceUpdate
        ((handle_disconnect [("s1", ⟨"Ana", "ana", ""⟩)] "s1").1.map (fun q => q.2))
      ∈ (handle_disconnect [("s1", ⟨"Ana", "ana", ""⟩)] "s1").2) :=
  presence_dedup [] "s1" "s2" ⟨"Ana", "ana", ""⟩ ⟨"Ana", "ana", ""⟩
    [("s1", ⟨"Ana", "ana", ""⟩)] "s1" ("s1", ⟨"Ana", "ana", ""⟩)
    rfl (by decide) (by decide) (by decide) (by decide) (by decide)
